import Mathlib

/-!
Verification development for the ClickHouse output sink
(`src/output/clickhouse_output.go`).

The Go file is shallowly embedded below:

* Go `interface{}` values that flow through records and column defaults are
  modelled by the closed tagged union `GoValue`.
* `strconv.ParseInt` / `strconv.ParseUint` / `strconv.ParseFloat` (base 10)
  are modelled by `parseIntGo` / `parseUintGo` / `parseFloatGo` on `Nat`/`Int`
  with explicit powers of two for the bit-size range checks.
* `glog.Fatalf` (which aborts the whole process) is modelled by
  `Except.error ()`; a value of `Except.ok v` means the code path returns
  normally with `v`.
* The buffering/flush controller and the transactional flush worker are
  modelled as explicit state-passing functions over lists of operations /
  replica behaviours.
-/

set_option autoImplicit false

namespace Gohangout

/-- Model of the Go `interface{}` values handled by the sink: record field
values (string, `json.Number`, bool, nil, numbers, arrays) and the values the
code itself produces (int64/uint64/float results, `time.Time`, values built by
`clickhouse.Array`). `float` carries the exact rational value of the Go
float; `inf`/`nan` stand for the IEEE special values. -/
inductive GoValue where
  | null : GoValue
  | bool : Bool → GoValue
  | int : Int → GoValue
  | uint : Nat → GoValue
  | float : ℚ → GoValue
  | inf : Bool → GoValue
  | nan : GoValue
  | str : String → GoValue
  | jsonNum : String → GoValue
  | time : Int → GoValue
  | chArray : String → List GoValue → GoValue

/-- A record handed to `Emit`: Go `map[string]interface{}`, modelled as an
association list. -/
def Record : Type := List (String × GoValue)

/-- Decimal digit value of a character, `none` if not `0`-`9`. -/
def decDigit? (c : Char) : Option Nat :=
  if '0' ≤ c ∧ c ≤ '9' then some (c.toNat - '0'.toNat) else none

/-- Accumulate decimal digits left to right (the loop inside Go
`strconv.ParseUint`); fails on any non-digit character. -/
def decDigitsAux : List Char → Nat → Option Nat
  | [], acc => some acc
  | c :: cs, acc =>
    match decDigit? c with
    | some d => decDigitsAux cs (acc * 10 + d)
    | none => none

/-- Value of a non-empty all-digit character list, `none` otherwise. -/
def decDigitsToNat (cs : List Char) : Option Nat :=
  match cs with
  | [] => none
  | _ => decDigitsAux cs 0

/-- Model of Go `strconv.ParseUint(s, 10, bitSize)`, collapsing every error
(empty string, non-digit character, bit size above 64, value out of range —
including overflow of the uint64 accumulator) to `none`, since every caller
in the Go file only distinguishes `err == nil` from `err != nil`. -/
def parseUintGo (bitSize : Nat) (s : String) : Option Nat :=
  if bitSize > 64 then none
  else
    match decDigitsToNat s.data with
    | none => none
    | some n =>
      let bs := if bitSize = 0 then 64 else bitSize
      if n < 2 ^ bs then some n else none

/-- Model of Go `strconv.ParseInt(s, 10, bitSize)`: optional leading sign,
then `ParseUint(s, 10, 64)` (whose overflow clamp at `2^64 - 1` is kept),
then the signed cutoff check against `2^(bitSize-1)`; a bit size above 64 is
itself an error. All error returns collapse to `none`. -/
def parseIntGo (bitSize : Nat) (s : String) : Option Int :=
  match s.data with
  | [] => none
  | c0 :: rest =>
    let neg := c0 = '-'
    let ds := if c0 = '+' ∨ c0 = '-' then rest else c0 :: rest
    if bitSize > 64 then none
    else
      match decDigitsToNat ds with
      | none => none
      | some un =>
        let bs := if bitSize = 0 then 64 else bitSize
        let unc := min un (2 ^ 64 - 1)
        let cutoff := 2 ^ (bs - 1)
        if ¬neg ∧ unc ≥ cutoff then none
        else if neg ∧ unc > cutoff then none
        else some (if neg then -(unc : Int) else (unc : Int))

/-- Longest all-digit span of a character list, with the rest. -/
def spanDigits : List Char → List Char × List Char
  | [] => ([], [])
  | c :: cs =>
    if '0' ≤ c ∧ c ≤ '9' then
      let p := spanDigits cs
      (c :: p.1, p.2)
    else ([], c :: cs)

/-- Numeric value of an all-digit character list. -/
def digitsToNat (cs : List Char) : Nat :=
  cs.foldl (fun acc c => acc * 10 + (c.toNat - 48)) 0

/-- Mantissa of a decimal float literal: `digits [. digits]` with at least
one digit overall. Returns the exact rational value and the unconsumed rest. -/
def parseMantissa (cs : List Char) : Option (ℚ × List Char) :=
  let p := spanDigits cs
  let q :=
    match p.2 with
    | '.' :: r => spanDigits r
    | r => ([], r)
  let frac := if p.2 = [] then [] else (match p.2 with | '.' :: _ => q.1 | _ => [])
  let rest := match p.2 with | '.' :: _ => q.2 | r => r
  if p.1 = [] ∧ frac = [] then none
  else some ((digitsToNat p.1 : ℚ) + (digitsToNat frac : ℚ) / (10 : ℚ) ^ frac.length, rest)

/-- Exponent suffix of a decimal float literal: empty, or `e`/`E`, optional
sign, digits, consuming the whole remainder. -/
def parseExpPart : List Char → Option Int
  | [] => some 0
  | c :: cs =>
    if c = 'e' ∨ c = 'E' then
      let sg : Int × List Char :=
        match cs with
        | '+' :: r => (1, r)
        | '-' :: r => (-1, r)
        | r => (1, r)
      let p := spanDigits sg.2
      if p.1 = [] ∨ p.2 ≠ [] then none
      else some (sg.1 * (digitsToNat p.1 : Int))
    else none

/-- Scale a rational by a power of ten. -/
def scalePow10 (q : ℚ) (e : Int) : ℚ :=
  if e ≥ 0 then q * (10 : ℚ) ^ e.toNat else q / (10 : ℚ) ^ (-e).toNat

/-- Model of Go `strconv.ParseFloat(s, bitSize)` for the forms the sink can
meet: optional sign, then `inf`/`infinity`/`nan` (case-insensitive) or a
decimal literal `digits[.digits][(e|E)[sign]digits]`. Simplifications that no
claim depends on: hexadecimal floats and digit-separating underscores are not
modelled, the value is kept as the exact rational of the literal rather than
the rounded IEEE value, and the overflow/underflow range errors use the
bounding powers `2^128`/`2^1024` and `2^(-150)`/`2^(-1075)` of the two finite
float ranges. Every Go error return (syntax or range) collapses to `none`. -/
def parseFloatGo (bitSize : Nat) (s : String) : Option GoValue :=
  match s.data with
  | [] => none
  | cs =>
    let sg : Bool × List Char :=
      match cs with
      | '+' :: r => (false, r)
      | '-' :: r => (true, r)
      | r => (false, r)
    let low := sg.2.map Char.toLower
    if low = "inf".data ∨ low = "infinity".data then some (.inf sg.1)
    else if sg.1 = false ∧ low = "nan".data then some .nan
    else
      match parseMantissa sg.2 with
      | none => none
      | some m =>
        match parseExpPart m.2 with
        | none => none
        | some e =>
          let q := scalePow10 m.1 e
          let hi : ℚ := if bitSize = 32 then 2 ^ 128 else 2 ^ 1024
          let lo : ℚ := if bitSize = 32 then 1 / 2 ^ 150 else 1 / 2 ^ 1075
          if q ≥ hi then none
          else if q ≠ 0 ∧ q < lo then none
          else some (.float (if sg.1 then -q else q))

/-- One signed-integer case of the `switch` in `convertCkType` (the bodies
for `Int8/Int16/Int32/Int64/Int256` are identical up to the bit size):
`json.Number` and `string` sources are parsed with `strconv.ParseInt`; a
parse error reaches the trailing `glog.Fatalf` (modelled `.error ()`);
booleans map to `1`/`0`; any other dynamic type falls through and the input
is returned unchanged with a nil error. -/
def convSigned (bitSize : Nat) (val : GoValue) : Except Unit GoValue :=
  match val with
  | .jsonNum s =>
    match parseIntGo bitSize s with
    | some n => .ok (.int n)
    | none => .error ()
  | .str s =>
    match parseIntGo bitSize s with
    | some n => .ok (.int n)
    | none => .error ()
  | .bool b => if b then .ok (.int 1) else .ok (.int 0)
  | v => .ok v

/-- One unsigned-integer case of the `switch` in `convertCkType`
(`UInt8/UInt16/UInt32/UInt64/UInt256`), using `strconv.ParseUint`; the Go
boolean branch returns the untyped constants `1`/`0` (Go `int`). -/
def convUnsigned (bitSize : Nat) (val : GoValue) : Except Unit GoValue :=
  match val with
  | .jsonNum s =>
    match parseUintGo bitSize s with
    | some n => .ok (.uint n)
    | none => .error ()
  | .str s =>
    match parseUintGo bitSize s with
    | some n => .ok (.uint n)
    | none => .error ()
  | .bool b => if b then .ok (.int 1) else .ok (.int 0)
  | v => .ok v

/-- One floating-point case of the `switch` in `convertCkType`
(`Float32/Decimal32` with bit size 32, `Float64/Decimal64` with 64), using
`strconv.ParseFloat`; booleans map to `float(1)`/`float(0)`. -/
def convFloat (bitSize : Nat) (val : GoValue) : Except Unit GoValue :=
  match val with
  | .jsonNum s =>
    match parseFloatGo bitSize s with
    | some v => .ok v
    | none => .error ()
  | .str s =>
    match parseFloatGo bitSize s with
    | some v => .ok v
    | none => .error ()
  | .bool b => if b then .ok (.float 1) else .ok (.float 0)
  | v => .ok v

/-- Model of `convertCkType(ckType, val)`. The Go `switch ckType` (a chain of
string comparisons, in source order) dispatches to the per-family bodies; for
any other `ckType` no case runs, `err` stays nil and the value is returned
unchanged. Inside a matching case a failed parse leaves `err != nil`, which
the function tail turns into `glog.Fatalf` — modelled as `.error ()`. -/
def convertCkType (ckType : String) (val : GoValue) : Except Unit GoValue :=
  if ckType = "Int32" then convSigned 32 val
  else if ckType = "UInt32" then convUnsigned 32 val
  else if ckType = "Int16" then convSigned 16 val
  else if ckType = "UInt16" then convUnsigned 16 val
  else if ckType = "Float32" ∨ ckType = "Decimal32" then convFloat 32 val
  else if ckType = "Int8" then convSigned 8 val
  else if ckType = "UInt8" then convUnsigned 8 val
  else if ckType = "Int64" then convSigned 64 val
  else if ckType = "UInt64" then convUnsigned 64 val
  else if ckType = "Float64" ∨ ckType = "Decimal64" then convFloat 64 val
  else if ckType = "Int256" then convSigned 256 val
  else if ckType = "UInt256" then convUnsigned 256 val
  else .ok val

/-- The storeTypes covered by the `convertCkType` switch. -/
def ckCoveredTypes : List String :=
  ["Int32", "UInt32", "Int16", "UInt16", "Float32", "Decimal32", "Int8", "UInt8",
   "Int64", "UInt64", "Float64", "Decimal64", "Int256", "UInt256"]

/-- Model of the Go struct `rowDesc` (one row of `desc table`): fields
`Name`, `Type`, `DefaultType`, `DefaultExpression` (the Lean field `typ`
stands for the Go field `Type`). -/
structure rowDesc where
  name : String
  typ : String
  defaultType : String
  defaultExpression : String
deriving DecidableEq

/-- Enum normalization applied to the `type` column while scanning
`desc table` rows: a verbose `Enum16(...)`/`Enum8(...)` spelling is cut down
to the short tag. -/
def normalizeCkType (t : String) : String :=
  if t.startsWith "Enum16" then "Enum16"
  else if t.startsWith "Enum8" then "Enum8"
  else t

/-- A scanned `desc table` row with the enum normalization applied. -/
def normalizeRowDesc (r : rowDesc) : rowDesc :=
  { r with typ := normalizeCkType r.typ }

/-- Insert into an association list with Go-map overwrite semantics. -/
def insertAssoc {β : Type} (m : List (String × β)) (k : String) (v : β) : List (String × β) :=
  match m with
  | [] => [(k, v)]
  | (k', v') :: rest => if k' = k then (k, v) :: rest else (k', v') :: insertAssoc rest k v

/-- The map `c.desc` built from the rows of one successful `desc table`
query: each row is normalized and stored under its column name. -/
def buildDesc (rs : List rowDesc) : List (String × rowDesc) :=
  rs.foldl (fun acc r => insertAssoc acc r.name (normalizeRowDesc r)) []

/-- Outcome of one `db.Query("desc table ...")` attempt against the replica
returned by the Host Selector:
`fail` — `db.Query` returns an error (the code logs it and continues);
`scanFail` — the query succeeded but reading the rows fails
(`rows.Columns`, `rows.Scan` or the JSON round-trip), which is
`glog.Fatalf`; `rows` — the scanned rows. -/
inductive DescQueryResult where
  | fail : DescQueryResult
  | scanFail : DescQueryResult
  | rows : List rowDesc → DescQueryResult
deriving DecidableEq

/-- Model of `setTableDesc`: the loop tries the `Size()` successive replicas
(the list holds each attempt's outcome, in order). A failed query is logged
and the loop continues; the first successful query fills `c.desc` and the
function returns; when the loop runs out, the function returns with `c.desc`
still the empty map it was initialized to. `.error ()` models the
`glog.Fatalf` calls on a scan failure. -/
def setTableDesc : List DescQueryResult → Except Unit (List (String × rowDesc))
  | [] => .ok []
  | .fail :: rest => setTableDesc rest
  | .scanFail :: _ => .error ()
  | .rows rs :: _ => .ok (buildDesc rs)

/-- The multi-value integer case of the `switch d.Type` in
`setColumnDefault`, in source order. -/
def ckIntTypes : List String :=
  ["UInt8", "UInt16", "UInt32", "UInt64", "Int8", "Int16", "Int32", "Int64"]

/-- The multi-value array case of the `switch d.Type` in `setColumnDefault`
whose default is `clickhouse.Array([]string{})`. -/
def ckStrArrayTypes : List String :=
  ["Array(String)", "Array(IPv4)", "Array(IPv6)", "Array(Date)", "Array(DateTime)"]

/-- Per-column body of `setColumnDefault`: the first `switch` on
`d.DefaultType` fixes the literal default expression (`DEFAULT` keeps the
expression, `MATERIALIZED`/`ALIAS` and any unknown kind are `glog.Fatal`,
the empty kind means no declared default), then the `switch` on `d.Type`
produces the entry for the DefaultValue table. `.ok none` models the
`default:` branch: the unsupported type is logged and the column is skipped.
`.error ()` models every `glog.Fatal`/`glog.Fatalf`. -/
def setColumnDefaultFor (d : rowDesc) : Except Unit (Option GoValue) :=
  match (match d.defaultType with
         | "DEFAULT" => Except.ok (some d.defaultExpression)
         | "MATERIALIZED" => Except.error ()
         | "ALIAS" => Except.error ()
         | "" => Except.ok none
         | _ => Except.error ()) with
  | .error () => .error ()
  | .ok dv =>
    if d.typ = "String" ∨ d.typ = "LowCardinality(String)" then
      match dv with
      | none => .ok (some (.str ""))
      | some lit => .ok (some (.str lit))
    else if d.typ = "Date" ∨ d.typ = "DateTime" ∨ d.typ = "DateTime64" then
      .ok (some (.time 0))
    else if d.typ ∈ ckIntTypes then
      match dv with
      | none => .ok (some (.int 0))
      | some lit =>
        match parseIntGo 64 lit with
        | some i => .ok (some (.int i))
        | none => .error ()
    else if d.typ = "Float32" ∨ d.typ = "Float64" then
      match dv with
      | none => .ok (some (.float 0))
      | some lit =>
        match parseFloatGo 64 lit with
        | some v => .ok (some v)
        | none => .error ()
    else if d.typ = "IPv4" then .ok (some (.str "0.0.0.0"))
    else if d.typ = "IPv6" then .ok (some (.str "::"))
    else if d.typ ∈ ckStrArrayTypes then .ok (some (.chArray "string" []))
    else if d.typ = "Array(UInt8)" then .ok (some (.chArray "uint8" []))
    else if d.typ = "Array(UInt16)" then .ok (some (.chArray "uint16" []))
    else if d.typ = "Array(UInt32)" then .ok (some (.chArray "uint32" []))
    else if d.typ = "Array(UInt64)" then .ok (some (.chArray "uint64" []))
    else if d.typ = "Array(Int8)" then .ok (some (.chArray "int8" []))
    else if d.typ = "Array(Int16)" then .ok (some (.chArray "int16" []))
    else if d.typ = "Array(Int32)" then .ok (some (.chArray "int32" []))
    else if d.typ = "Array(Int64)" then .ok (some (.chArray "int64" []))
    else if d.typ = "Array(Float32)" then .ok (some (.chArray "float32" []))
    else if d.typ = "Array(Float64)" then .ok (some (.chArray "float64" []))
    else if d.typ = "Enum16" then .ok (some (.str ""))
    else if d.typ = "Enum8" then .ok (some (.str ""))
    else .ok none

/-- Model of the loop of `setColumnDefault` over the columns of `c.desc`:
the DefaultValue table collects the per-column entries, skipping columns
whose type is unsupported; any fatal per-column outcome aborts. -/
def setColumnDefault : List (String × rowDesc) → Except Unit (List (String × GoValue))
  | [] => .ok []
  | (cn, d) :: rest =>
    match setColumnDefaultFor d with
    | .error () => .error ()
    | .ok none => setColumnDefault rest
    | .ok (some v) =>
      match setColumnDefault rest with
      | .error () => .error ()
      | .ok tbl => .ok ((cn, v) :: tbl)

/-- Typed-array and plain-array storeTypes of the default-value switch. -/
def ckArrayTypes : List String :=
  ckStrArrayTypes ++
  ["Array(UInt8)", "Array(UInt16)", "Array(UInt32)", "Array(UInt64)",
   "Array(Int8)", "Array(Int16)", "Array(Int32)", "Array(Int64)",
   "Array(Float32)", "Array(Float64)"]

/-- All storeTypes covered by the default-value switch of
`setColumnDefault`. -/
def ckDefaultTypes : List String :=
  ["String", "LowCardinality(String)", "Date", "DateTime", "DateTime64"] ++
  ckIntTypes ++ ["Float32", "Float64", "IPv4", "IPv6"] ++ ckArrayTypes ++
  ["Enum16", "Enum8"]

/-- The read-only part of `ClickhouseOutput` used while building argument
rows: the schema map `desc`, the DefaultValue table `defaultValue`, and the
positional column order `fields` (all built once at startup). -/
structure CkConfig where
  desc : List (String × rowDesc)
  defaultValue : List (String × GoValue)
  fields : List String

/-- The `else` branch of the argument loop in `innerFlush`: the column's
precomputed DefaultValue if one is registered, otherwise the empty string
(the code comment there says "this should not happen"). -/
def defaultArgFor (c : CkConfig) (field : String) : GoValue :=
  match List.lookup field c.defaultValue with
  | some v3 => v3
  | none => .str ""

/-- One iteration of the argument loop in `innerFlush` for column `field`:
if the event has the field with a non-nil value, the value is coerced with
`convertCkType` using the column's storeType from `desc` (the dead Go branch
that would keep the raw value on `err != nil` is unreachable because
`convertCkType` never returns a non-nil error — it fatals instead, modelled
`.error ()`; a `desc` miss would be a nil-pointer crash, likewise modelled
`.error ()`); otherwise the missing-field substitution applies. -/
def argFor (c : CkConfig) (event : Record) (field : String) : Except Unit GoValue :=
  match List.lookup field (event : List (String × GoValue)) with
  | some .null => .ok (defaultArgFor c field)
  | some v =>
    match List.lookup field c.desc with
    | some ct => convertCkType ct.typ v
    | none => .error ()
  | none => .ok (defaultArgFor c field)

/-- The whole argument row for one event, positionally over `fields` (the
loop `for i, field := range c.fields` filling `args`). -/
def buildArgs (c : CkConfig) (event : Record) : List String → Except Unit (List GoValue)
  | [] => .ok []
  | f :: fs =>
    match argFor c event f with
    | .error () => .error ()
    | .ok a =>
      match buildArgs c event fs with
      | .error () => .error ()
      | .ok rest => .ok (a :: rest)

/-- The mutable buffer state of the flush controller: the configured batch
capacity `bulk_actions` and the buffered `events` (both fields of
`ClickhouseOutput`; the mutex serializes every access, so the model is a
sequential state machine over the interleaved operations). -/
structure FlushCtl where
  bulk_actions : Nat
  events : List Record

/-- Model of `Emit(event)` under the lock: append, and if the buffered count
is still below `bulk_actions` return without dispatching; otherwise swap in
a fresh empty buffer and dispatch the snapshot to `bulkChan`. -/
def emitStep (st : FlushCtl) (e : Record) : FlushCtl × Option (List Record) :=
  let evs := st.events ++ [e]
  if evs.length < st.bulk_actions then (⟨st.bulk_actions, evs⟩, none)
  else (⟨st.bulk_actions, []⟩, some evs)

/-- Model of the timer-driven `flush()` under the lock: dispatch the whole
buffer if it is non-empty, otherwise do nothing. -/
def flushStep (st : FlushCtl) : FlushCtl × Option (List Record) :=
  if 0 < st.events.length then (⟨st.bulk_actions, []⟩, some st.events) else (st, none)

/-- An operation hitting the flush controller: a producer call of `Emit`, or
a tick of the flush-interval timer. -/
inductive CkOp where
  | emit : Record → CkOp
  | tick : CkOp

/-- One controller step. -/
def stepOp (st : FlushCtl) : CkOp → FlushCtl × Option (List Record)
  | .emit e => emitStep st e
  | .tick => flushStep st

/-- Run a sequence of interleaved operations from a given state, collecting
the dispatched batches in dispatch order. -/
def runOps (st : FlushCtl) : List CkOp → FlushCtl × List (List Record)
  | [] => (st, [])
  | op :: ops =>
    match stepOp st op with
    | (st', none) => runOps st' ops
    | (st', some batch) =>
      match runOps st' ops with
      | (stf, bs) => (stf, batch :: bs)

/-- The records submitted by a sequence of operations, in order. -/
def emittedRecords : List CkOp → List Record
  | [] => []
  | .emit e :: ops => e :: emittedRecords ops
  | .tick :: ops => emittedRecords ops

/-- Behaviour of one replica handed out by `dbSelector.Next()` inside
`innerFlush`: whether `Begin` returns a transaction, whether `tx.Prepare`
succeeds, which row executions succeed (`execOk i` is the outcome of the
`stmt.Exec` for the batch's `i`-th event), and whether `tx.Commit`
succeeds. -/
structure TxBehavior where
  beginOk : Bool
  prepareOk : Bool
  execOk : Nat → Bool
  commitOk : Bool

/-- Outcome of one dispatched batch:
`committed rows` — every row was executed and the commit succeeded;
`dropped` — the function returned early (prepare, a row execution, or the
commit failed), so the deferred `tx.Rollback` discards the transaction and
the batch is lost; `fatal` — building an argument row hit `glog.Fatalf`
(coercion parse failure), killing the process. -/
inductive FlushOutcome where
  | committed : List Record → FlushOutcome
  | dropped : FlushOutcome
  | fatal : FlushOutcome

/-- The `for _, event := range events` loop of `innerFlush` inside an opened
transaction: each event's argument row is built (a coercion fatal kills the
process) and executed; the first failing execution makes the function return
with the batch dropped; after the last row the commit decides. -/
def execEvents (c : CkConfig) (b : TxBehavior) (allEvents : List Record) :
    List Record → Nat → FlushOutcome
  | [], _ => if b.commitOk then .committed allEvents else .dropped
  | ev :: rest, i =>
    match buildArgs c ev c.fields with
    | .error () => .fatal
    | .ok _ =>
      if b.execOk i then execEvents c b allEvents rest (i + 1) else .dropped

/-- Body of one `innerFlush` loop iteration after `Begin` returned a
transaction: `tx.Prepare` failure returns (batch dropped), otherwise the row
loop and the commit run. -/
def runTx (c : CkConfig) (events : List Record) (b : TxBehavior) : FlushOutcome :=
  if b.prepareOk then execEvents c b events events 0 else .dropped

/-- Model of the retry loop of `innerFlush` over the successive replicas
returned by `dbSelector.Next()` (the list holds each attempt's behaviour):
a failed `Begin` is logged and the loop continues with the next replica; the
first successful `Begin` runs the transaction and the function returns its
outcome. `none` means every supplied attempt failed `Begin`, i.e. the loop
is still retrying (the Go loop never gives up on its own). -/
def innerFlush (c : CkConfig) (events : List Record) : List TxBehavior → Option FlushOutcome
  | [] => none
  | b :: rest =>
    if b.beginOk then some (runTx c events b) else innerFlush c events rest

/-- Helper: in a signed-integer case, a failed `strconv.ParseInt` on a
string or `json.Number` source reaches the trailing `glog.Fatalf`. -/
theorem convSigned_parse_fatal (w : Nat) (s : String) (h : parseIntGo w s = none) :
    convSigned w (.str s) = .error () ∧ convSigned w (.jsonNum s) = .error () := by
  constructor <;> simp [convSigned, h]

/-- Helper: same for the unsigned-integer cases. -/
theorem convUnsigned_parse_fatal (w : Nat) (s : String) (h : parseUintGo w s = none) :
    convUnsigned w (.str s) = .error () ∧ convUnsigned w (.jsonNum s) = .error () := by
  constructor <;> simp [convUnsigned, h]

/-- Helper: same for the float/decimal cases. -/
theorem convFloat_parse_fatal (w : Nat) (s : String) (h : parseFloatGo w s = none) :
    convFloat w (.str s) = .error () ∧ convFloat w (.jsonNum s) = .error () := by
  constructor <;> simp [convFloat, h]

/-- C2. The claim says a valid numeric-string coerced to `Int256`/`UInt256`
succeeds with the parsed integer. On the code it does not: `convertCkType`
calls `strconv.ParseInt`/`strconv.ParseUint` with bit size 256, which Go
rejects outright (bit sizes above 64 are an error), so every numeric-string
source leaves `err != nil` and the trailing `glog.Fatalf` aborts the
process. This theorem evaluates the coercion at the failing input `"123"`. -/
theorem c2_int256_numeric_string_fatal :
    convertCkType "Int256" (.str "123") = .error () ∧
    convertCkType "Int256" (.jsonNum "123") = .error () ∧
    convertCkType "UInt256" (.str "123") = .error () ∧
    convertCkType "UInt256" (.jsonNum "123") = .error () :=
  ⟨rfl, rfl, rfl, rfl⟩

/-- C6. Coercion round trip: boolean `true` to every 8/16/32/64-bit signed
and unsigned integer family yields `1` and `false` yields `0`; the
numeric-string `"123"` (as Go `string` or `json.Number`) to the 16-bit
families yields the integer `123`; the out-of-range numeric string `"999"`
for the 8-bit families is a coercion failure (the fatal `.error ()`). -/
theorem c6_coercion_round_trip :
    convertCkType "Int8" (.bool true) = .ok (.int 1) ∧
    convertCkType "Int8" (.bool false) = .ok (.int 0) ∧
    convertCkType "Int16" (.bool true) = .ok (.int 1) ∧
    convertCkType "Int16" (.bool false) = .ok (.int 0) ∧
    convertCkType "Int32" (.bool true) = .ok (.int 1) ∧
    convertCkType "Int32" (.bool false) = .ok (.int 0) ∧
    convertCkType "Int64" (.bool true) = .ok (.int 1) ∧
    convertCkType "Int64" (.bool false) = .ok (.int 0) ∧
    convertCkType "UInt8" (.bool true) = .ok (.int 1) ∧
    convertCkType "UInt8" (.bool false) = .ok (.int 0) ∧
    convertCkType "UInt16" (.bool true) = .ok (.int 1) ∧
    convertCkType "UInt16" (.bool false) = .ok (.int 0) ∧
    convertCkType "UInt32" (.bool true) = .ok (.int 1) ∧
    convertCkType "UInt32" (.bool false) = .ok (.int 0) ∧
    convertCkType "UInt64" (.bool true) = .ok (.int 1) ∧
    convertCkType "UInt64" (.bool false) = .ok (.int 0) ∧
    convertCkType "Int16" (.str "123") = .ok (.int 123) ∧
    convertCkType "Int16" (.jsonNum "123") = .ok (.int 123) ∧
    convertCkType "UInt16" (.str "123") = .ok (.uint 123) ∧
    convertCkType "UInt16" (.jsonNum "123") = .ok (.uint 123) ∧
    convertCkType "Int8" (.str "999") = .error () ∧
    convertCkType "Int8" (.jsonNum "999") = .error () ∧
    convertCkType "UInt8" (.str "999") = .error () ∧
    convertCkType "UInt8" (.jsonNum "999") = .error () :=
  ⟨rfl, rfl, rfl, rfl, rfl, rfl, rfl, rfl, rfl, rfl, rfl, rfl,
   rfl, rfl, rfl, rfl, rfl, rfl, rfl, rfl, rfl, rfl, rfl, rfl⟩

/-- C7. For every storeType covered by the coercion switch, a parse failure
of a generic-string (`.str`) or numeric-string (`.jsonNum`) source is the
fatal, process-terminating `.error ()` — the coercion never returns a
best-effort value after a failed parse. -/
theorem c7_parse_failure_fatal (s : String) :
    (parseIntGo 32 s = none →
      convertCkType "Int32" (.str s) = .error () ∧ convertCkType "Int32" (.jsonNum s) = .error ()) ∧
    (parseUintGo 32 s = none →
      convertCkType "UInt32" (.str s) = .error () ∧ convertCkType "UInt32" (.jsonNum s) = .error ()) ∧
    (parseIntGo 16 s = none →
      convertCkType "Int16" (.str s) = .error () ∧ convertCkType "Int16" (.jsonNum s) = .error ()) ∧
    (parseUintGo 16 s = none →
      convertCkType "UInt16" (.str s) = .error () ∧ convertCkType "UInt16" (.jsonNum s) = .error ()) ∧
    (parseFloatGo 32 s = none →
      convertCkType "Float32" (.str s) = .error () ∧ convertCkType "Float32" (.jsonNum s) = .error ()) ∧
    (parseFloatGo 32 s = none →
      convertCkType "Decimal32" (.str s) = .error () ∧ convertCkType "Decimal32" (.jsonNum s) = .error ()) ∧
    (parseIntGo 8 s = none →
      convertCkType "Int8" (.str s) = .error () ∧ convertCkType "Int8" (.jsonNum s) = .error ()) ∧
    (parseUintGo 8 s = none →
      convertCkType "UInt8" (.str s) = .error () ∧ convertCkType "UInt8" (.jsonNum s) = .error ()) ∧
    (parseIntGo 64 s = none →
      convertCkType "Int64" (.str s) = .error () ∧ convertCkType "Int64" (.jsonNum s) = .error ()) ∧
    (parseUintGo 64 s = none →
      convertCkType "UInt64" (.str s) = .error () ∧ convertCkType "UInt64" (.jsonNum s) = .error ()) ∧
    (parseFloatGo 64 s = none →
      convertCkType "Float64" (.str s) = .error () ∧ convertCkType "Float64" (.jsonNum s) = .error ()) ∧
    (parseFloatGo 64 s = none →
      convertCkType "Decimal64" (.str s) = .error () ∧ convertCkType "Decimal64" (.jsonNum s) = .error ()) ∧
    (parseIntGo 256 s = none →
      convertCkType "Int256" (.str s) = .error () ∧ convertCkType "Int256" (.jsonNum s) = .error ()) ∧
    (parseUintGo 256 s = none →
      convertCkType "UInt256" (.str s) = .error () ∧ convertCkType "UInt256" (.jsonNum s) = .error ()) :=
  ⟨fun h => convSigned_parse_fatal 32 s h,
   fun h => convUnsigned_parse_fatal 32 s h,
   fun h => convSigned_parse_fatal 16 s h,
   fun h => convUnsigned_parse_fatal 16 s h,
   fun h => convFloat_parse_fatal 32 s h,
   fun h => convFloat_parse_fatal 32 s h,
   fun h => convSigned_parse_fatal 8 s h,
   fun h => convUnsigned_parse_fatal 8 s h,
   fun h => convSigned_parse_fatal 64 s h,
   fun h => convUnsigned_parse_fatal 64 s h,
   fun h => convFloat_parse_fatal 64 s h,
   fun h => convFloat_parse_fatal 64 s h,
   fun h => convSigned_parse_fatal 256 s h,
   fun h => convUnsigned_parse_fatal 256 s h⟩

/-- Witness for C7 at the concrete non-numeric source `"x"`. -/
theorem c7_parse_failure_fatal_witness :
    convertCkType "Int32" (.str "x") = .error () ∧
    convertCkType "Int32" (.jsonNum "x") = .error () :=
  (c7_parse_failure_fatal "x").1 rfl

/-- C10. For every storeType not covered by the coercion switch and every
input value, `convertCkType` passes the value through unmodified with a nil
error. -/
theorem c10_uncovered_type_identity (t : String) (ht : t ∉ ckCoveredTypes) (v : GoValue) :
    convertCkType t v = .ok v := by
  simp only [ckCoveredTypes, List.mem_cons, List.not_mem_nil, or_false, not_or] at ht
  obtain ⟨h1, h2, h3, h4, h5, h6, h7, h8, h9, h10, h11, h12, h13, h14⟩ := ht
  simp [convertCkType, h1, h2, h3, h4, h5, h6, h7, h8, h9, h10, h11, h12, h13, h14]

/-- Witness for C10 at the storeType `"String"` (not in the switch). -/
theorem c10_uncovered_type_identity_witness :
    convertCkType "String" (.str "hello") = .ok (.str "hello") :=
  c10_uncovered_type_identity "String" (by decide) (.str "hello")

/-- C1 counterexample. The claim says that when the schema-describe query
fails on every replica, startup aborts. On the code it does not: each failed
`db.Query` is only logged (`glog.Errorf`) and the loop continues, and when
all `Size()` attempts fail, `setTableDesc` returns normally with `c.desc`
still empty — here evaluated with two replicas whose queries both fail. -/
theorem c1_counterexample :
    setTableDesc [.fail, .fail] = .ok [] ∧ setTableDesc [.fail, .fail] ≠ .error () := by
  constructor
  · rfl
  · simp [setTableDesc]

/-- C1 (amended). If the schema-describe query fails on every replica at
startup, `setTableDesc` logs each failure and returns normally with an
empty schema map; startup continues with the empty schema instead of
aborting. -/
theorem c1_all_replicas_fail_empty_schema (results : List DescQueryResult)
    (h : ∀ r ∈ results, r = .fail) : setTableDesc results = .ok [] := by
  induction results with
  | nil => rfl
  | cons r rest ih =>
    have hr : r = DescQueryResult.fail := h r (List.mem_cons_self r rest)
    subst hr
    exact ih fun x hx => h x (List.mem_cons_of_mem _ hx)

/-- Witness for the amended C1 with two failing replicas. -/
theorem c1_all_replicas_fail_empty_schema_witness :
    setTableDesc [.fail, .fail] = .ok [] :=
  c1_all_replicas_fail_empty_schema [.fail, .fail] (by decide)

/-- C9. For every column whose defaultKind is none (empty `DefaultType`),
the DefaultValue entry is the type-family zero value: the empty string for
string-like and enumerated types, the epoch instant for the temporal types,
`0` for every integer and floating-point family, `"0.0.0.0"` for IPv4,
`"::"` for IPv6, and an empty typed array for every array type; any
storeType outside this set yields no entry (the column is excluded from the
table). -/
theorem c9_default_zero_values :
    (∀ t ∈ ["String", "LowCardinality(String)", "Enum16", "Enum8"], ∀ n e,
      setColumnDefaultFor ⟨n, t, "", e⟩ = .ok (some (.str ""))) ∧
    (∀ t ∈ ["Date", "DateTime", "DateTime64"], ∀ n e,
      setColumnDefaultFor ⟨n, t, "", e⟩ = .ok (some (.time 0))) ∧
    (∀ t ∈ ckIntTypes, ∀ n e,
      setColumnDefaultFor ⟨n, t, "", e⟩ = .ok (some (.int 0))) ∧
    (∀ t ∈ ["Float32", "Float64"], ∀ n e,
      setColumnDefaultFor ⟨n, t, "", e⟩ = .ok (some (.float 0))) ∧
    (∀ n e, setColumnDefaultFor ⟨n, "IPv4", "", e⟩ = .ok (some (.str "0.0.0.0"))) ∧
    (∀ n e, setColumnDefaultFor ⟨n, "IPv6", "", e⟩ = .ok (some (.str "::"))) ∧
    (∀ t ∈ ckArrayTypes, ∀ n e, ∃ et,
      setColumnDefaultFor ⟨n, t, "", e⟩ = .ok (some (.chArray et []))) ∧
    (∀ n t e, t ∉ ckDefaultTypes → setColumnDefaultFor ⟨n, t, "", e⟩ = .ok none) := by
  refine ⟨?_, ?_, ?_, ?_, fun n e => rfl, fun n e => rfl, ?_, ?_⟩
  · intro t ht n e
    fin_cases ht <;> rfl
  · intro t ht n e
    fin_cases ht <;> rfl
  · intro t ht n e
    fin_cases ht <;> rfl
  · intro t ht n e
    fin_cases ht <;> rfl
  · intro t ht n e
    fin_cases ht <;> exact ⟨_, rfl⟩
  · intro n t e ht
    simp only [ckDefaultTypes, ckIntTypes, ckArrayTypes, ckStrArrayTypes, List.append_assoc,
      List.cons_append, List.nil_append, List.mem_cons, List.not_mem_nil, or_false,
      not_or] at ht
    simp [setColumnDefaultFor, ckIntTypes, ckStrArrayTypes, ht]

/-- Witness for C9: one representative per group, plus one uncovered
storeType (`"UUID"`) that is excluded. -/
theorem c9_default_zero_values_witness :
    setColumnDefaultFor ⟨"c1", "String", "", ""⟩ = .ok (some (.str "")) ∧
    setColumnDefaultFor ⟨"c2", "DateTime", "", ""⟩ = .ok (some (.time 0)) ∧
    setColumnDefaultFor ⟨"c3", "UInt8", "", ""⟩ = .ok (some (.int 0)) ∧
    setColumnDefaultFor ⟨"c4", "Float64", "", ""⟩ = .ok (some (.float 0)) ∧
    (∃ et, setColumnDefaultFor ⟨"c5", "Array(Int32)", "", ""⟩ = .ok (some (.chArray et []))) ∧
    setColumnDefaultFor ⟨"c6", "UUID", "", ""⟩ = .ok none :=
  ⟨c9_default_zero_values.1 "String" (by simp) "c1" "",
   c9_default_zero_values.2.1 "DateTime" (by simp) "c2" "",
   c9_default_zero_values.2.2.1 "UInt8" (by simp [ckIntTypes]) "c3" "",
   c9_default_zero_values.2.2.2.1 "Float64" (by simp) "c4" "",
   c9_default_zero_values.2.2.2.2.2.2.1 "Array(Int32)" (by simp [ckArrayTypes, ckStrArrayTypes]) "c5" "",
   c9_default_zero_values.2.2.2.2.2.2.2 "c6" "UUID" "" (by decide)⟩

/-- C8. When building a positional argument row, a column whose field is
absent from the record or explicitly null receives the precomputed
DefaultValue for that column; when no DefaultValue entry exists for the
column, the empty string is substituted. The last conjunct states it
positionally over `buildArgs`: at every position of `fields` whose field is
missing or null in the record, the produced row holds that substituted
value. -/
theorem c8_missing_field_substitution :
    (∀ (c : CkConfig) (event : Record) (field : String),
      (List.lookup field (event : List (String × GoValue)) = none ∨
       List.lookup field (event : List (String × GoValue)) = some .null) →
      argFor c event field = .ok (defaultArgFor c field)) ∧
    (∀ (c : CkConfig) (field : String),
      List.lookup field c.defaultValue = none → defaultArgFor c field = .str "") ∧
    (∀ (c : CkConfig) (field : String) (v : GoValue),
      List.lookup field c.defaultValue = some v → defaultArgFor c field = v) ∧
    (∀ (c : CkConfig) (event : Record) (fs : List String) (args : List GoValue),
      buildArgs c event fs = .ok args →
      ∀ (i : Nat) (field : String), fs.get? i = some field →
      (List.lookup field (event : List (String × GoValue)) = none ∨
       List.lookup field (event : List (String × GoValue)) = some .null) →
      args.get? i = some (defaultArgFor c field)) := by
  refine ⟨?_, ?_, ?_, ?_⟩
  · intro c event field h
    rcases h with h | h <;> simp [argFor, h]
  · intro c field h
    simp [defaultArgFor, h]
  · intro c field v h
    simp [defaultArgFor, h]
  · intro c event fs
    induction fs with
    | nil =>
      intro args _ i field hget
      simp at hget
    | cons f fs' ih =>
      intro args hargs i field hget hmiss
      rw [buildArgs] at hargs
      rcases ha : argFor c event f with _ | a
      · rw [ha] at hargs
        exact absurd hargs (by simp)
      · rw [ha] at hargs
        rcases hrest : buildArgs c event fs' with _ | rest
        · rw [hrest] at hargs
          exact absurd hargs (by simp)
        · rw [hrest] at hargs
          have hargs' : args = a :: rest := by
            simpa using hargs.symm
          subst hargs'
          match i, hget with
          | 0, hget =>
            have hf : f = field := by simpa using hget
            subst hf
            have : argFor c event f = .ok (defaultArgFor c f) := by
              rcases hmiss with h | h <;> simp [argFor, h]
            rw [ha] at this
            simpa using this
          | i + 1, hget =>
            simp only [List.get?] at hget ⊢
            exact ih rest hrest i field hget hmiss

/-- Witness for C8 on a record lacking the field `"x"`, with an empty
DefaultValue table (so the empty string is substituted). -/
theorem c8_missing_field_substitution_witness :
    argFor ⟨[], [], ["x"]⟩ [] "x" = .ok (defaultArgFor ⟨[], [], ["x"]⟩ "x") ∧
    defaultArgFor ⟨[], [], ["x"]⟩ "x" = .str "" :=
  ⟨c8_missing_field_substitution.1 ⟨[], [], ["x"]⟩ [] "x" (Or.inl rfl),
   c8_missing_field_substitution.2.1 ⟨[], [], ["x"]⟩ "x" rfl⟩

/-- Helper invariant for C3: over any operation sequence, the dispatched
batches in order, followed by what is still buffered, are exactly the
initial buffer followed by the submitted records in order — so no record is
duplicated or dropped by the controller. -/
theorem runOps_partition (ops : List CkOp) : ∀ st : FlushCtl,
    (runOps st ops).2.flatten ++ (runOps st ops).1.events = st.events ++ emittedRecords ops := by
  induction ops with
  | nil => intro st; simp [runOps, emittedRecords]
  | cons op ops ih =>
    intro st
    cases op with
    | emit e =>
      by_cases hlen : (st.events ++ [e]).length < st.bulk_actions
      · have hs : stepOp st (.emit e) = (⟨st.bulk_actions, st.events ++ [e]⟩, none) := by
          simp only [stepOp, emitStep]
          rw [if_pos hlen]
        simp only [runOps, hs]
        rw [ih]
        simp [emittedRecords]
      · have hs : stepOp st (.emit e) = (⟨st.bulk_actions, []⟩, some (st.events ++ [e])) := by
          simp only [stepOp, emitStep]
          rw [if_neg hlen]
        rcases hr : runOps ⟨st.bulk_actions, []⟩ ops with ⟨stf, bs⟩
        have hinv := ih ⟨st.bulk_actions, []⟩
        rw [hr] at hinv
        simp at hinv
        simp only [runOps, hs, hr]
        simp only [List.flatten_cons, List.append_assoc]
        rw [hinv]
        simp [emittedRecords]
    | tick =>
      by_cases h0 : 0 < st.events.length
      · have hs : stepOp st .tick = (⟨st.bulk_actions, []⟩, some st.events) := by
          simp only [stepOp, flushStep]
          rw [if_pos h0]
        rcases hr : runOps ⟨st.bulk_actions, []⟩ ops with ⟨stf, bs⟩
        have hinv := ih ⟨st.bulk_actions, []⟩
        rw [hr] at hinv
        simp at hinv
        simp only [runOps, hs, hr]
        simp only [List.flatten_cons, List.append_assoc]
        rw [hinv]
        simp [emittedRecords]
      · have hs : stepOp st .tick = (st, none) := by
          simp only [stepOp, flushStep]
          rw [if_neg h0]
        have hempty : st.events = [] := by
          simpa using h0
        simp only [runOps, hs]
        rw [ih]
        simp [emittedRecords, hempty]

/-- C3. Starting from an empty buffer, for every interleaving of submitted
records and timer ticks: the dispatched batches, in order, followed by the
final buffer contents, are exactly the submitted records in order (each
record reaches exactly one dispatched batch once the buffer empties — never
duplicated, never dropped); an `Emit` that fills the buffer to the
configured capacity dispatches the whole buffer, one below capacity
dispatches nothing; a timer tick with a non-empty buffer dispatches the
whole buffer; a timer tick with an empty buffer dispatches nothing. -/
theorem c3_exactly_once_dispatch :
    (∀ (cap : Nat) (ops : List CkOp),
      (runOps ⟨cap, []⟩ ops).2.flatten ++ (runOps ⟨cap, []⟩ ops).1.events = emittedRecords ops) ∧
    (∀ (st : FlushCtl) (e : Record), st.events.length + 1 = st.bulk_actions →
      emitStep st e = (⟨st.bulk_actions, []⟩, some (st.events ++ [e]))) ∧
    (∀ (st : FlushCtl) (e : Record), st.events.length + 1 < st.bulk_actions →
      emitStep st e = (⟨st.bulk_actions, st.events ++ [e]⟩, none)) ∧
    (∀ st : FlushCtl, st.events ≠ [] → flushStep st = (⟨st.bulk_actions, []⟩, some st.events)) ∧
    (∀ st : FlushCtl, st.events = [] → flushStep st = (st, none)) := by
  refine ⟨?_, ?_, ?_, ?_, ?_⟩
  · intro cap ops
    simpa using runOps_partition ops ⟨cap, []⟩
  · intro st e h
    have hn : ¬ ((st.events ++ [e]).length < st.bulk_actions) := by
      simp only [List.length_append, List.length_cons, List.length_nil]
      omega
    simp only [emitStep]
    rw [if_neg hn]
  · intro st e h
    have hp : (st.events ++ [e]).length < st.bulk_actions := by
      simp only [List.length_append, List.length_cons, List.length_nil]
      omega
    simp only [emitStep]
    rw [if_pos hp]
  · intro st h
    have h0 : 0 < st.events.length := List.length_pos.mpr h
    simp [flushStep, h0]
  · intro st h
    simp [flushStep, h]

/-- Witness for C3: capacity 1 dispatches on the first record; capacity 2
buffers it; a tick flushes a non-empty buffer and skips an empty one. -/
theorem c3_exactly_once_dispatch_witness :
    emitStep ⟨1, []⟩ [] = (⟨1, []⟩, some [[]]) ∧
    emitStep ⟨2, []⟩ [] = (⟨2, [[]]⟩, none) ∧
    flushStep ⟨2, [[]]⟩ = (⟨2, []⟩, some [[]]) ∧
    flushStep ⟨2, []⟩ = (⟨2, []⟩, none) :=
  ⟨c3_exactly_once_dispatch.2.1 ⟨1, []⟩ [] rfl,
   c3_exactly_once_dispatch.2.2.1 ⟨2, []⟩ [] (by decide),
   c3_exactly_once_dispatch.2.2.2.1 ⟨2, [[]]⟩ (by simp),
   c3_exactly_once_dispatch.2.2.2.2 ⟨2, []⟩ rfl⟩

/-- Helper for C4: inside an opened transaction whose argument rows all
build without a coercion fatal, the row loop ends in full commit or drop. -/
theorem execEvents_ok_cases (c : CkConfig) (b : TxBehavior) (all : List Record) :
    ∀ (evs : List Record) (i : Nat), (∀ ev ∈ evs, ∃ a, buildArgs c ev c.fields = .ok a) →
      execEvents c b all evs i = .committed all ∨ execEvents c b all evs i = .dropped := by
  intro evs
  induction evs with
  | nil =>
    intro i _
    by_cases hc : b.commitOk <;> simp [execEvents, hc]
  | cons ev rest ih =>
    intro i h
    obtain ⟨a, ha⟩ := h ev (by simp)
    by_cases he : b.execOk i
    · simp only [execEvents, ha, he, if_true]
      exact ih (i + 1) fun x hx => h x (by simp [hx])
    · simp [execEvents, ha, he]

/-- Helper for C4: a failed commit drops the batch. -/
theorem execEvents_commit_false (c : CkConfig) (b : TxBehavior) (all : List Record)
    (hc : b.commitOk = false) :
    ∀ (evs : List Record) (i : Nat), (∀ ev ∈ evs, ∃ a, buildArgs c ev c.fields = .ok a) →
      execEvents c b all evs i = .dropped := by
  intro evs
  induction evs with
  | nil =>
    intro i _
    simp [execEvents, hc]
  | cons ev rest ih =>
    intro i h
    obtain ⟨a, ha⟩ := h ev (by simp)
    by_cases he : b.execOk i
    · simp only [execEvents, ha, he, if_true]
      exact ih (i + 1) fun x hx => h x (by simp [hx])
    · simp [execEvents, ha, he]

/-- Helper for C4: if any row execution in range fails, the loop returns
with the batch dropped. -/
theorem execEvents_row_fail (c : CkConfig) (b : TxBehavior) (all : List Record) :
    ∀ (evs : List Record) (i : Nat), (∀ ev ∈ evs, ∃ a, buildArgs c ev c.fields = .ok a) →
      (∃ j, j < evs.length ∧ b.execOk (i + j) = false) →
      execEvents c b all evs i = .dropped := by
  intro evs
  induction evs with
  | nil =>
    rintro i _ ⟨j, hj, _⟩
    exact absurd hj (by simp)
  | cons ev rest ih =>
    rintro i h ⟨j, hj, hfail⟩
    obtain ⟨a, ha⟩ := h ev (by simp)
    by_cases he : b.execOk i
    · have hj0 : j ≠ 0 := by
        intro h0
        rw [h0, Nat.add_zero] at hfail
        rw [hfail] at he
        exact absurd he (by simp)
      obtain ⟨j', rfl⟩ := Nat.exists_eq_succ_of_ne_zero hj0
      simp only [execEvents, ha, he, if_true]
      refine ih (i + 1) (fun x hx => h x (by simp [hx])) ⟨j', ?_, ?_⟩
      · simp only [List.length_cons] at hj
        omega
      · rw [show i + 1 + j' = i + (j' + 1) by omega]
        exact hfail
    · simp [execEvents, ha, he]

/-- C4. Once `Begin` has returned a transaction for a dispatched batch
(and no argument row hits the process-fatal coercion path), the write has
exactly two outcomes: fully committed with every record, or fully discarded
(the early `return` leaves the transaction to the deferred `tx.Rollback`).
Any failing row execution drops the batch, a failed commit drops the batch,
and the function returns immediately after the opened transaction — later
replicas are never consulted, i.e. no retry and no requeue. -/
theorem c4_batch_atomicity (c : CkConfig) (events : List Record) (b : TxBehavior)
    (h : ∀ ev ∈ events, ∃ a, buildArgs c ev c.fields = .ok a) :
    ((runTx c events b = .committed events ∨ runTx c events b = .dropped) ∧
     ((∃ i, i < events.length ∧ b.execOk i = false) → runTx c events b = .dropped) ∧
     (b.commitOk = false → runTx c events b = .dropped) ∧
     (∀ rest : List TxBehavior, b.beginOk = true →
       innerFlush c events (b :: rest) = some (runTx c events b))) := by
  refine ⟨?_, ?_, ?_, ?_⟩
  · by_cases hp : b.prepareOk
    · rw [runTx, if_pos hp]
      exact execEvents_ok_cases c b events events 0 h
    · simp [runTx, hp]
  · rintro ⟨i, hi, hfail⟩
    by_cases hp : b.prepareOk
    · rw [runTx, if_pos hp]
      exact execEvents_row_fail c b events events 0 h ⟨i, hi, by simpa using hfail⟩
    · simp [runTx, hp]
  · intro hc
    by_cases hp : b.prepareOk
    · rw [runTx, if_pos hp]
      exact execEvents_commit_false c b events hc events 0 h
    · simp [runTx, hp]
  · intro rest hb
    simp [innerFlush, hb]

/-- Witness for C4: a healthy replica with a one-record batch and no
columns. -/
theorem c4_batch_atomicity_witness :
    runTx ⟨[], [], []⟩ [[]] ⟨true, true, fun _ => true, true⟩ = .committed [[]] ∨
    runTx ⟨[], [], []⟩ [[]] ⟨true, true, fun _ => true, true⟩ = .dropped :=
  (c4_batch_atomicity ⟨[], [], []⟩ [[]] ⟨true, true, fun _ => true, true⟩
    (fun _ _ => ⟨[], rfl⟩)).1

/-- C5. A failed `Begin` does not discard the batch: the loop logs the
error and retries with the next replica returned by the Host Selector, and
the run over a list of successive replica behaviours produces an outcome
exactly when some supplied attempt's `Begin` succeeds — with every `Begin`
failing the loop just keeps retrying (modelled: the run over any finite
attempt list returns `none`). -/
theorem c5_begin_failure_retries :
    (∀ (c : CkConfig) (events : List Record) (b : TxBehavior) (rest : List TxBehavior),
      b.beginOk = false → innerFlush c events (b :: rest) = innerFlush c events rest) ∧
    (∀ (c : CkConfig) (events : List Record) (attempts : List TxBehavior),
      (innerFlush c events attempts).isSome = true ↔ ∃ b ∈ attempts, b.beginOk = true) := by
  constructor
  · intro c events b rest hb
    simp [innerFlush, hb]
  · intro c events attempts
    induction attempts with
    | nil => simp [innerFlush]
    | cons b rest ih =>
      by_cases hb : b.beginOk = true
      · simp [innerFlush, hb]
      · simp only [Bool.not_eq_true] at hb
        simp [innerFlush, hb, ih]

/-- Witness for C5: one replica whose `Begin` fails is skipped. -/
theorem c5_begin_failure_retries_witness :
    innerFlush ⟨[], [], []⟩ [] [⟨false, true, fun _ => true, true⟩] =
      innerFlush ⟨[], [], []⟩ [] [] :=
  c5_begin_failure_retries.1 ⟨[], [], []⟩ [] ⟨false, true, fun _ => true, true⟩ [] rfl

end Gohangout
